import Mathlib

/-!
Verification of the U4Genius MCP gateway (`mcp_server.py`).

The file embeds the tool dispatcher `call_tool` of `mcp_server.py` as a
pure Lean function.  The Python dispatcher is stateless: the module defines
no mutable session variable, and each branch of `call_tool` issues at most
one HTTP request to the backend (via `_post_json` / `_get_json`) and maps
the response — or the exception it raised — to a `CallToolResult`.  The
embedding therefore takes the backend's behaviour as a function from
requests to responses and returns, next to the protocol result, the list
of HTTP requests the call issued, so that theorems can speak about whether
and how the backend was contacted.
-/

namespace U4G

/-- JSON values, as produced and consumed by the gateway. -/
inductive Json where
  | null
  | str (s : String)
  | num (n : Int)
  | bool (b : Bool)
  | arr (items : List Json)
  | obj (fields : List (String × Json))

/-- Field lookup in a JSON object (`data["key"]` on a dict); `none` on
non-objects and missing keys. -/
def Json.lookup : Json → String → Option Json
  | .obj fields, key => List.lookup key fields
  | _, _ => none

/-- Tool-call arguments: `req.arguments or {}` in the source, a finite map
from argument name to string value (the four tools only declare string
arguments in their input schemas). -/
abbrev Args := List (String × String)

/-- `args.get(key)` — `none` models Python `None` for an absent key. -/
def Args.get? (args : Args) (key : String) : Option String :=
  List.lookup key args

/-- Python `str.strip()`: remove leading and trailing whitespace. -/
def pyStrip (s : String) : String :=
  ⟨List.reverse (List.dropWhile Char.isWhitespace
     (List.reverse (List.dropWhile Char.isWhitespace s.data)))⟩

/-- An HTTP request issued to the backend.  The httpx calls in
`_post_json` and `_get_json` pass only `json=payload` resp.
`params=params`; no custom headers are ever supplied by the code, so
`headers` is `[]` in every request the dispatcher builds.  `params`
values are `Option String` because `obtener_columnas` forwards
`args.get(...)` results, which may be Python `None`. -/
structure Request where
  method : String
  path : String
  body : List (String × Json)
  params : List (String × Option String)
  headers : List (String × String)

/-- `_post_json(path, payload)`: a POST request with a JSON body. -/
def postReq (path : String) (body : List (String × Json)) : Request :=
  { method := "POST", path := path, body := body, params := [], headers := [] }

/-- `_get_json(path, params)`: a GET request with query parameters. -/
def getReq (path : String) (params : List (String × Option String)) : Request :=
  { method := "GET", path := path, body := [], params := params, headers := [] }

/-- Outcome of one backend HTTP call as seen by `call_tool`: a JSON body
on a success status, an `httpx.HTTPStatusError` carrying status code and
raw body (raised by `raise_for_status`), or any other exception (network
error, timeout, malformed response body, ...) carrying its message. -/
inductive BResp where
  | ok (json : Json)
  | httpError (status : Nat) (body : String)
  | failure (msg : String)

/-- One entry of a `CallToolResult`'s `content` list. -/
inductive Content where
  | json (j : Json)
  | text (t : String)

/-- The MCP result type: `CallToolResult(isError=..., content=[...])`;
`isError` defaults to `False` in the SDK. -/
structure CallToolResult where
  isError : Bool := false
  content : List Content

/-- The warning payload `listar_reportes` returns when no `company`
argument is given. -/
def warningText : String :=
  "Sin parámetro company. Llama primero a inicializar_sesion."

/-- The `try/except` wrapping of one backend call in `call_tool`:
`httpx.HTTPStatusError` → `f"HTTP {status_code}: {text}"`, any other
exception → `f"Error: {e}"`; on success the result is built from the
response JSON. -/
def handleResp (resp : BResp) (onOk : Json → CallToolResult) : CallToolResult :=
  match resp with
  | .ok j => onOk j
  | .httpError c b =>
      { isError := true, content := [.text ("HTTP " ++ toString c ++ ": " ++ b)] }
  | .failure m =>
      { isError := true, content := [.text ("Error: " ++ m)] }

/-- The request `inicializar_sesion` issues:
`_post_json("/inicializar_sesion", {"company": args.get("company", "").strip()})`. -/
def inicializarReq (args : Args) : Request :=
  postReq "/inicializar_sesion"
    [("company", Json.str (pyStrip ((args.get? "company").getD "")))]

/-- The request `listar_reportes` issues when a non-blank `company` was
supplied: `_post_json("/inicializar_sesion", {"company": company})`. -/
def listarReq (company : String) : Request :=
  postReq "/inicializar_sesion" [("company", Json.str company)]

/-- The request `obtener_columnas` issues:
`_get_json("/columnas", {"objectid": args.get("objectid"), "company": args.get("company")})`. -/
def columnasReq (args : Args) : Request :=
  getReq "/columnas"
    [("objectid", args.get? "objectid"), ("company", args.get? "company")]

/-- The request `consultar_reporte` issues:
`_post_json("/consultar_reporte", {"pregunta": args.get("pregunta", "")})`. -/
def consultarReq (args : Args) : Request :=
  postReq "/consultar_reporte"
    [("pregunta", Json.str ((args.get? "pregunta").getD ""))]

/-- The warning result `listar_reportes` yields when no usable `company`
argument is given:
`{"warning": "Sin parámetro company. Llama primero a inicializar_sesion."}`. -/
def warningResult : CallToolResult :=
  { content := [.json (Json.obj [("warning", Json.str warningText)])] }

/-- Shallow embedding of `call_tool` (`mcp_server.py`, lines 131-169):
given the tool name, the arguments and the backend's behaviour, returns
the protocol result together with the list of HTTP requests issued while
handling the call.  `(args.get("company") or "").strip()` in
`listar_reportes` coincides with `pyStrip ((args.get? "company").getD "")`
on string-valued arguments, since `x or ""` maps `None` and `""` to `""`
and `"".strip() = ""`. -/
def callTool (name : String) (args : Args) (backend : Request → BResp) :
    CallToolResult × List Request :=
  if name = "inicializar_sesion" then
    let req := inicializarReq args
    (handleResp (backend req) (fun data => { content := [.json data] }), [req])
  else if name = "listar_reportes" then
    let company := pyStrip ((args.get? "company").getD "")
    if company ≠ "" then
      let req := listarReq company
      (handleResp (backend req) (fun data => { content := [.json data] }), [req])
    else
      (warningResult, [])
  else if name = "obtener_columnas" then
    let req := columnasReq args
    (handleResp (backend req) (fun data => { content := [.json data] }), [req])
  else if name = "consultar_reporte" then
    let req := consultarReq args
    (handleResp (backend req) (fun data => { content := [.json data] }), [req])
  else
    ({ isError := true, content := [.text ("Tool no soportada: " ++ name)] }, [])

/-- The first JSON payload of a result's content, if any. -/
def CallToolResult.firstJson (r : CallToolResult) : Option Json :=
  match r.content with
  | .json j :: _ => some j
  | _ => none

/-- All text fragments of a result's content, concatenated. -/
def CallToolResult.allText (r : CallToolResult) : String :=
  (r.content.map (fun c => match c with | .text t => t | _ => "")).foldr
    (fun t acc => t ++ acc) ""

/-- The `available_queries` field of the result's JSON payload. -/
def availableQueriesOf (r : CallToolResult) : Option Json :=
  r.firstJson.bind (fun j => j.lookup "available_queries")

/-- `t` occurs inside `s` as a contiguous substring. -/
def strContains (s t : String) : Prop :=
  ∃ a b, s = a ++ t ++ b

/-- One tool invocation together with the backend behaviour it observes. -/
structure Invocation where
  name : String
  args : Args
  backend : Request → BResp

/-- Handling a sequence of tool invocations.  `mcp_server.py` defines no
module-level mutable state ever written by `call_tool` (the only globals
are the configuration constants and the FastAPI/MCP objects), so a run is
the list of per-invocation results, each computed from that invocation
alone. -/
def runCalls (calls : List Invocation) : List (CallToolResult × List Request) :=
  calls.map (fun inv => callTool inv.name inv.args inv.backend)

/-- Backend used in round-trip counterexamples: every call answers with a
full session payload `{"company": "EN", "session_id": "S1",
"available_queries": []}`. -/
def enInitResp : Json :=
  Json.obj [("company", Json.str "EN"), ("session_id", Json.str "S1"),
            ("available_queries", Json.arr [])]

/-- A backend that answers `enInitResp` to every request. -/
def enBackend : Request → BResp := fun _ => .ok enInitResp

/-- Backend response of the §8 scenario: `{"company": "EN",
"available_queries": [{"reportname": "Sales", "objectid": "R1"}]}` — no
`session_id`. -/
def salesResp : Json :=
  Json.obj [("company", Json.str "EN"),
            ("available_queries",
              Json.arr [Json.obj [("reportname", Json.str "Sales"),
                                  ("objectid", Json.str "R1")]])]

/-- A backend that answers `salesResp` to every request. -/
def salesBackend : Request → BResp := fun _ => .ok salesResp

/-- A backend that answers `{}` to every request. -/
def emptyOkBackend : Request → BResp := fun _ => .ok (Json.obj [])

/-- A backend that answers HTTP 500 with body "internal error" to every
request (the §8 error scenario). -/
def http500Backend : Request → BResp := fun _ => .httpError 500 "internal error"

/-- A backend on which every request fails with a generic exception whose
message is "timeout". -/
def failBackend : Request → BResp := fun _ => .failure "timeout"

/-- Helper: `listar_reportes` with a blank (or absent) `company` argument
returns the warning payload and issues no request. -/
theorem listar_blank_company (args : Args) (backend : Request → BResp)
    (h : pyStrip ((args.get? "company").getD "") = "") :
    callTool "listar_reportes" args backend = (warningResult, []) := by
  simp [callTool, h]

/-- C1 counterexample: with a backend that answers the full session
payload `enInitResp` (company "EN", session id "S1"), a successful
`inicializar_sesion("EN")` returns that payload, yet the following
`listar_reportes()` with no argument returns a payload with no `company`,
no `session_id` and no `available_queries` field at all — not the values
the initialization returned. -/
theorem c1_roundtrip_counterexample :
    (callTool "inicializar_sesion" [("company", "EN")] enBackend).1.firstJson =
      some enInitResp ∧
    (callTool "listar_reportes" [] enBackend).1.firstJson.bind
      (fun j => j.lookup "company") = none ∧
    (callTool "listar_reportes" [] enBackend).1.firstJson.bind
      (fun j => j.lookup "session_id") = none ∧
    (callTool "listar_reportes" [] enBackend).1.firstJson.bind
      (fun j => j.lookup "available_queries") = none :=
  ⟨rfl, rfl, rfl, rfl⟩

/-- C1 (amended): the dispatcher keeps no session state, so after any
history of calls — in particular after a successful
`inicializar_sesion` — `listar_reportes` with no (or blank) `company`
argument returns the fixed warning payload telling the caller to invoke
`inicializar_sesion` first, and issues no backend request. -/
theorem c1_roundtrip_amended (hist : List Invocation) (args : Args)
    (backend : Request → BResp)
    (h : pyStrip ((args.get? "company").getD "") = "") :
    (runCalls (hist ++ [⟨"listar_reportes", args, backend⟩])).getLast? =
      some (warningResult, []) := by
  have hsplit : runCalls (hist ++ [⟨"listar_reportes", args, backend⟩]) =
      runCalls hist ++ [callTool "listar_reportes" args backend] := by
    simp [runCalls]
  rw [hsplit, List.getLast?_concat, listar_blank_company args backend h]

/-- C1 witness: the amended statement at the concrete two-call history of
the claim. -/
theorem c1_roundtrip_amended_witness :
    pyStrip ((Args.get? [] "company").getD "") = "" ∧
    (runCalls ([⟨"inicializar_sesion", [("company", "EN")], enBackend⟩] ++
        [⟨"listar_reportes", [], enBackend⟩])).getLast? =
      some (warningResult, []) :=
  ⟨rfl, c1_roundtrip_amended [⟨"inicializar_sesion", [("company", "EN")], enBackend⟩]
    [] enBackend rfl⟩

/-- C2 counterexample: `inicializar_sesion` with no `company` argument
does contact the backend — it POSTs `{"company": ""}` to
`/inicializar_sesion` — and, when the backend answers `{}` successfully,
returns a non-error result, not an error result. -/
theorem c2_empty_company_counterexample :
    (callTool "inicializar_sesion" [] emptyOkBackend).1.isError = false ∧
    (callTool "inicializar_sesion" [] emptyOkBackend).2 =
      [postReq "/inicializar_sesion" [("company", Json.str "")]] :=
  ⟨rfl, rfl⟩

/-- C2 (amended): `inicializar_sesion` performs no input validation: with
an empty or absent `company` it still POSTs `{"company": ""}` to the
backend and returns whatever the response handling yields (there is no
Session Store to leave unchanged). -/
theorem c2_empty_company_amended (args : Args) (backend : Request → BResp)
    (h : pyStrip ((args.get? "company").getD "") = "") :
    callTool "inicializar_sesion" args backend =
      (handleResp (backend (postReq "/inicializar_sesion" [("company", Json.str "")]))
        (fun data => { content := [.json data] }),
       [postReq "/inicializar_sesion" [("company", Json.str "")]]) := by
  simp [callTool, inicializarReq, h]

/-- C2 witness: the amended statement with `company` absent and a backend
answering `{}`. -/
theorem c2_empty_company_amended_witness :
    pyStrip ((Args.get? [] "company").getD "") = "" ∧
    callTool "inicializar_sesion" [] emptyOkBackend =
      (handleResp (emptyOkBackend (postReq "/inicializar_sesion" [("company", Json.str "")]))
        (fun data => { content := [.json data] }),
       [postReq "/inicializar_sesion" [("company", Json.str "")]]) :=
  ⟨rfl, c2_empty_company_amended [] emptyOkBackend rfl⟩

/-- C3 counterexample: on the §8 scenario — backend answers `salesResp`,
which has no `session_id` — `inicializar_sesion("EN")` returns the
backend JSON verbatim: its payload has no `session_id` and no `message`
field, and the result carries no text content at all, so no synthesized
session id and no line "Sales (objectid: R1)" is returned. -/
theorem c3_synthesis_counterexample :
    (callTool "inicializar_sesion" [("company", "EN")] salesBackend).1 =
      { isError := false, content := [.json salesResp] } ∧
    (callTool "inicializar_sesion" [("company", "EN")] salesBackend).1.firstJson.bind
      (fun j => j.lookup "session_id") = none ∧
    (callTool "inicializar_sesion" [("company", "EN")] salesBackend).1.firstJson.bind
      (fun j => j.lookup "message") = none ∧
    (callTool "inicializar_sesion" [("company", "EN")] salesBackend).1.allText = "" :=
  ⟨rfl, rfl, rfl, rfl⟩

/-- C3 (amended): on a successful backend response `inicializar_sesion`
returns the backend's JSON unchanged as the sole content item; it neither
synthesizes a session identifier nor formats a per-report message, and it
stores nothing. -/
theorem c3_passthrough_amended (args : Args) (backend : Request → BResp) (j : Json)
    (h : backend (inicializarReq args) = .ok j) :
    callTool "inicializar_sesion" args backend =
      ({ isError := false, content := [.json j] }, [inicializarReq args]) := by
  simp [callTool, h, handleResp]

/-- C3 witness: the amended statement on the §8 scenario input. -/
theorem c3_passthrough_amended_witness :
    salesBackend (inicializarReq [("company", "EN")]) = .ok salesResp ∧
    callTool "inicializar_sesion" [("company", "EN")] salesBackend =
      ({ isError := false, content := [.json salesResp] },
       [inicializarReq [("company", "EN")]]) :=
  ⟨rfl, c3_passthrough_amended [("company", "EN")] salesBackend salesResp rfl⟩

/-- C4 counterexample: `obtener_columnas(objectid="X")` with no `company`
argument and no prior initialization does issue the backend GET (with
`company` passed as Python `None`), and on a successful backend answer
returns a non-error result instead of the claimed local error. -/
theorem c4_columns_counterexample :
    (callTool "obtener_columnas" [("objectid", "X")] emptyOkBackend).2 =
      [getReq "/columnas" [("objectid", some "X"), ("company", none)]] ∧
    (callTool "obtener_columnas" [("objectid", "X")] emptyOkBackend).1.isError = false :=
  ⟨rfl, rfl⟩

/-- C4 (amended): `obtener_columnas` always issues exactly one backend
GET to `/columnas`, forwarding the `objectid` and `company` arguments as
given (absent ones as `None`); there is no company fallback and no local
error path. -/
theorem c4_columns_amended (args : Args) (backend : Request → BResp) :
    (callTool "obtener_columnas" args backend).2 = [columnasReq args] ∧
    (callTool "obtener_columnas" args backend).1 =
      handleResp (backend (columnasReq args))
        (fun data => { content := [.json data] }) := by
  constructor <;> simp [callTool]

/-- C5 counterexample: even after the backend has returned session id
"S1" to `inicializar_sesion`, the requests later issued by
`obtener_columnas` and `consultar_reporte` carry an empty header list —
no correlation header of any name is attached. -/
theorem c5_header_counterexample :
    enInitResp.lookup "session_id" = some (Json.str "S1") ∧
    (callTool "inicializar_sesion" [("company", "EN")] enBackend).1.firstJson =
      some enInitResp ∧
    (callTool "obtener_columnas" [("objectid", "X"), ("company", "EN")] enBackend).2 =
      [getReq "/columnas" [("objectid", some "X"), ("company", some "EN")]] ∧
    (getReq "/columnas" [("objectid", some "X"), ("company", some "EN")]).headers = [] ∧
    (callTool "consultar_reporte" [("pregunta", "ventas")] enBackend).2 =
      [consultarReq [("pregunta", "ventas")]] ∧
    (consultarReq [("pregunta", "ventas")]).headers = [] :=
  ⟨rfl, rfl, rfl, rfl, rfl, rfl⟩

/-- C5 (amended): the dispatcher never attaches any custom header to any
backend request — every request any tool issues has an empty header
list; no session id is stored or forwarded. -/
theorem c5_no_headers_amended (name : String) (args : Args)
    (backend : Request → BResp) (req : Request)
    (h : req ∈ (callTool name args backend).2) :
    req.headers = [] := by
  by_cases h1 : name = "inicializar_sesion"
  · simp [callTool, h1, inicializarReq, postReq] at h
    subst h; rfl
  by_cases h2 : name = "listar_reportes"
  · by_cases hc : pyStrip ((args.get? "company").getD "") = ""
    · simp [callTool, h1, h2, hc] at h
    · simp [callTool, h1, h2, hc, listarReq, postReq] at h
      subst h; rfl
  by_cases h3 : name = "obtener_columnas"
  · simp [callTool, h1, h2, h3, columnasReq, getReq] at h
    subst h; rfl
  by_cases h4 : name = "consultar_reporte"
  · simp [callTool, h1, h2, h3, h4, consultarReq, postReq] at h
    subst h; rfl
  simp [callTool, h1, h2, h3, h4] at h

/-- C5 witness: the amended statement on the request issued by a concrete
`obtener_columnas` call. -/
theorem c5_no_headers_amended_witness :
    (getReq "/columnas" [("objectid", some "X"), ("company", none)]) ∈
      (callTool "obtener_columnas" [("objectid", "X")] emptyOkBackend).2 ∧
    (getReq "/columnas" [("objectid", some "X"), ("company", none)]).headers = [] := by
  have hm : (getReq "/columnas" [("objectid", some "X"), ("company", none)]) ∈
      (callTool "obtener_columnas" [("objectid", "X")] emptyOkBackend).2 := by
    show _ ∈ [getReq "/columnas" [("objectid", some "X"), ("company", none)]]
    exact List.mem_singleton.mpr rfl
  exact ⟨hm, c5_no_headers_amended "obtener_columnas" [("objectid", "X")]
    emptyOkBackend _ hm⟩

/-- C6: whenever a tool invocation reaches the backend (at least one
request is issued) and the backend answers with a non-success HTTP
status, the dispatcher returns an error result whose text is
`"HTTP {status}: {body}"` — it contains the decimal status code and the
raw response body. -/
theorem c6_http_status_error (name : String) (args : Args)
    (backend : Request → BResp) (c : Nat) (b : String)
    (hb : ∀ r, backend r = .httpError c b)
    (hr : (callTool name args backend).2 ≠ []) :
    (callTool name args backend).1 =
      { isError := true, content := [.text ("HTTP " ++ toString c ++ ": " ++ b)] } ∧
    strContains (callTool name args backend).1.allText (toString c) ∧
    strContains (callTool name args backend).1.allText b := by
  have hmain : (callTool name args backend).1 =
      { isError := true, content := [.text ("HTTP " ++ toString c ++ ": " ++ b)] } := by
    by_cases h1 : name = "inicializar_sesion"
    · simp [callTool, h1, hb, handleResp]
    by_cases h2 : name = "listar_reportes"
    · by_cases hc2 : pyStrip ((args.get? "company").getD "") = ""
      · exact absurd (by simp [callTool, h1, h2, hc2]) hr
      · simp [callTool, h1, h2, hc2, hb, handleResp]
    by_cases h3 : name = "obtener_columnas"
    · simp [callTool, h1, h2, h3, hb, handleResp]
    by_cases h4 : name = "consultar_reporte"
    · simp [callTool, h1, h2, h3, h4, hb, handleResp]
    exact absurd (by simp [callTool, h1, h2, h3, h4]) hr
  refine ⟨hmain, ?_, ?_⟩
  · rw [hmain]
    exact ⟨"HTTP ", ": " ++ b, by
      simp [CallToolResult.allText, String.append_empty, String.append_assoc]⟩
  · rw [hmain]
    exact ⟨"HTTP " ++ toString c ++ ": ", "", by
      simp [CallToolResult.allText, String.append_empty]⟩

/-- C6 witness: the §8 scenario — backend answers 500 / "internal error"
to a concrete `obtener_columnas` call. -/
theorem c6_http_status_error_witness :
    (callTool "obtener_columnas" [("objectid", "X")] http500Backend).2 ≠ [] ∧
    (callTool "obtener_columnas" [("objectid", "X")] http500Backend).1 =
      { isError := true, content := [.text "HTTP 500: internal error"] } ∧
    strContains
      (callTool "obtener_columnas" [("objectid", "X")] http500Backend).1.allText
      "500" ∧
    strContains
      (callTool "obtener_columnas" [("objectid", "X")] http500Backend).1.allText
      "internal error" := by
  have hr : (callTool "obtener_columnas" [("objectid", "X")] http500Backend).2 ≠ [] := by
    show ([columnasReq [("objectid", "X")]] : List Request) ≠ []
    exact List.cons_ne_nil _ _
  have h := c6_http_status_error "obtener_columnas" [("objectid", "X")]
    http500Backend 500 "internal error" (fun r => rfl) hr
  exact ⟨hr, h.1, h.2.1, h.2.2⟩

/-- C7: a tool name outside the four recognized ones yields an error
result whose text names the unsupported tool, and no backend request is
issued. -/
theorem c7_unsupported_tool (name : String) (args : Args)
    (backend : Request → BResp)
    (h1 : name ≠ "inicializar_sesion") (h2 : name ≠ "listar_reportes")
    (h3 : name ≠ "obtener_columnas") (h4 : name ≠ "consultar_reporte") :
    callTool name args backend =
      ({ isError := true, content := [.text ("Tool no soportada: " ++ name)] }, []) ∧
    strContains ("Tool no soportada: " ++ name) name := by
  refine ⟨by simp [callTool, h1, h2, h3, h4], ⟨"Tool no soportada: ", "", ?_⟩⟩
  rw [String.append_empty]

/-- C7 witness: the unsupported tool name "foo". -/
theorem c7_unsupported_tool_witness :
    callTool "foo" [] emptyOkBackend =
      ({ isError := true, content := [.text ("Tool no soportada: " ++ "foo")] }, []) ∧
    strContains ("Tool no soportada: " ++ "foo") "foo" :=
  c7_unsupported_tool "foo" [] emptyOkBackend (by decide) (by decide) (by decide)
    (by decide)

/-- C8: any non-HTTP-status failure raised while a tool call talks to the
backend (network error, timeout, malformed response body, ...) is caught
and becomes an error result whose text is `"Error: {message}"`, which
contains the failure's message; `callTool` is total, so no failure
escapes the handling of a single call. -/
theorem c8_failure_caught (name : String) (args : Args)
    (backend : Request → BResp) (m : String)
    (hb : ∀ r, backend r = .failure m)
    (hr : (callTool name args backend).2 ≠ []) :
    (callTool name args backend).1 =
      { isError := true, content := [.text ("Error: " ++ m)] } ∧
    strContains (callTool name args backend).1.allText m := by
  have hmain : (callTool name args backend).1 =
      { isError := true, content := [.text ("Error: " ++ m)] } := by
    by_cases h1 : name = "inicializar_sesion"
    · simp [callTool, h1, hb, handleResp]
    by_cases h2 : name = "listar_reportes"
    · by_cases hc2 : pyStrip ((args.get? "company").getD "") = ""
      · exact absurd (by simp [callTool, h1, h2, hc2]) hr
      · simp [callTool, h1, h2, hc2, hb, handleResp]
    by_cases h3 : name = "obtener_columnas"
    · simp [callTool, h1, h2, h3, hb, handleResp]
    by_cases h4 : name = "consultar_reporte"
    · simp [callTool, h1, h2, h3, h4, hb, handleResp]
    exact absurd (by simp [callTool, h1, h2, h3, h4]) hr
  refine ⟨hmain, ?_⟩
  rw [hmain]
  exact ⟨"Error: ", "", by simp [CallToolResult.allText, String.append_empty]⟩

/-- C8 witness: a timeout during a concrete `consultar_reporte` call. -/
theorem c8_failure_caught_witness :
    (callTool "consultar_reporte" [("pregunta", "ventas")] failBackend).2 ≠ [] ∧
    (callTool "consultar_reporte" [("pregunta", "ventas")] failBackend).1 =
      { isError := true, content := [.text "Error: timeout"] } ∧
    strContains
      (callTool "consultar_reporte" [("pregunta", "ventas")] failBackend).1.allText
      "timeout" := by
  have hr : (callTool "consultar_reporte" [("pregunta", "ventas")] failBackend).2 ≠ [] := by
    show ([consultarReq [("pregunta", "ventas")]] : List Request) ≠ []
    exact List.cons_ne_nil _ _
  have h := c8_failure_caught "consultar_reporte" [("pregunta", "ventas")]
    failBackend "timeout" (fun r => rfl) hr
  exact ⟨hr, h.1, h.2⟩

/-- C9: `listar_reportes(company="EN")` issues the same
re-initialization request each time it is called; if the backend's
answer to that request is unchanged, two consecutive calls return
identical results — in particular identical `available_queries` content
in the same order. -/
theorem c9_idempotent (b1 b2 : Request → BResp)
    (h : b1 (listarReq "EN") = b2 (listarReq "EN")) :
    callTool "listar_reportes" [("company", "EN")] b1 =
      callTool "listar_reportes" [("company", "EN")] b2 ∧
    availableQueriesOf (callTool "listar_reportes" [("company", "EN")] b1).1 =
      availableQueriesOf (callTool "listar_reportes" [("company", "EN")] b2).1 := by
  have e1 : callTool "listar_reportes" [("company", "EN")] b1 =
      (handleResp (b1 (listarReq "EN")) (fun data => { content := [.json data] }),
       [listarReq "EN"]) := rfl
  have e2 : callTool "listar_reportes" [("company", "EN")] b2 =
      (handleResp (b2 (listarReq "EN")) (fun data => { content := [.json data] }),
       [listarReq "EN"]) := rfl
  rw [e1, e2, h]
  exact ⟨rfl, rfl⟩

/-- C9 witness: two calls against the same unchanged backend. -/
theorem c9_idempotent_witness :
    enBackend (listarReq "EN") = enBackend (listarReq "EN") ∧
    (callTool "listar_reportes" [("company", "EN")] enBackend =
       callTool "listar_reportes" [("company", "EN")] enBackend ∧
     availableQueriesOf (callTool "listar_reportes" [("company", "EN")] enBackend).1 =
       availableQueriesOf (callTool "listar_reportes" [("company", "EN")] enBackend).1) :=
  ⟨rfl, c9_idempotent enBackend enBackend rfl⟩

/-- C10: the dispatcher is stateless and deterministic — the outcome of
an invocation appended to any history of prior calls is the pure
function `callTool` of that invocation's name, arguments and backend
behaviour alone, so it is the same after any two histories. -/
theorem c10_stateless_deterministic (h1 h2 : List Invocation) (inv : Invocation) :
    (runCalls (h1 ++ [inv])).getLast? = some (callTool inv.name inv.args inv.backend) ∧
    (runCalls (h1 ++ [inv])).getLast? = (runCalls (h2 ++ [inv])).getLast? := by
  have key : ∀ h : List Invocation, (runCalls (h ++ [inv])).getLast? =
      some (callTool inv.name inv.args inv.backend) := by
    intro h
    have hsplit : runCalls (h ++ [inv]) =
        runCalls h ++ [callTool inv.name inv.args inv.backend] := by
      simp [runCalls]
    rw [hsplit, List.getLast?_concat]
  exact ⟨key h1, (key h1).trans (key h2).symm⟩

end U4G
